import Mathlib

/-!
# Verification of the pantograph stereo-rig configurator

Shallow embedding of the two scripts `setup_pantograph_scene.py` and
`capture_pantograph_data.py`: the stereo-rig geometry (focal length,
baseline offsets, catenary sampling, expected disparity), the USD-stage
mutation performed by `setup_stereo_baseline`, the semantic-label and
stage-opening error paths, and the capture-session event order.

Scene-graph state is modelled as a record of the prims the scripts
address, each prim carrying its ordered xform-op list and its attributes.
Float arithmetic is embedded as exact arithmetic over `ℚ` (or `ℝ` where
`tan`/`sqrt` are involved).
-/

namespace PantographStereo

/-- A 3-vector with rational coordinates (embedding of `Gf.Vec3d`). -/
structure Vec3 where
  x : ℚ
  y : ℚ
  z : ℚ
deriving DecidableEq, Repr

/-- The xform-op types the scripts use (`UsdGeom.XformOp.TypeTranslate`,
rotate ops, and a catch-all for any other op type). -/
inductive XformOpType where
  | translate
  | rotateXYZ
  | other
deriving DecidableEq, Repr

/-- One xform op: its type and its vector value. -/
structure XformOp where
  opType : XformOpType
  value : Vec3
deriving DecidableEq, Repr

/-- `true` exactly on translate ops (`op.GetOpType() == UsdGeom.XformOp.TypeTranslate`). -/
def isTranslate (o : XformOp) : Bool :=
  match o.opType with
  | XformOpType.translate => true
  | _ => false

/-- A prim: its ordered xform ops and its (name, value) attributes. -/
structure Prim where
  xformOps : List XformOp
  attrs : List (String × String)
deriving DecidableEq, Repr

/-- The stage restricted to the prim paths the scripts address; a field is
`none` when no valid prim lives at that path (`prim.IsValid()` is false). -/
structure Stage where
  pantograph : Option Prim
  stereoRig : Option Prim
  leftCam : Option Prim
  rightCam : Option Prim
  ground : Option Prim
  catenaryWire : Option Prim
deriving DecidableEq, Repr

def pantographPath : String := "/World/Pantograph"
def rigPath : String := "/World/StereoCameraRig"
def leftCamPath : String := "/World/StereoCameraRig/LeftCamera"
def rightCamPath : String := "/World/StereoCameraRig/RightCamera"
def groundPath : String := "/World/Ground"
def catenaryPath : String := "/World/CatenaryWire"

/-- `stage.GetPrimAtPath(path)`: `none` stands for an invalid prim. -/
def getPrimAtPath (s : Stage) (path : String) : Option Prim :=
  if path = pantographPath then s.pantograph
  else if path = rigPath then s.stereoRig
  else if path = leftCamPath then s.leftCam
  else if path = rightCamPath then s.rightCam
  else if path = groundPath then s.ground
  else if path = catenaryPath then s.catenaryWire
  else none

/-- Overwrite the prim at a known path (identity on unknown paths). -/
def setPrimAtPath (s : Stage) (path : String) (p : Prim) : Stage :=
  if path = pantographPath then { s with pantograph := some p }
  else if path = rigPath then { s with stereoRig := some p }
  else if path = leftCamPath then { s with leftCam := some p }
  else if path = rightCamPath then { s with rightCam := some p }
  else if path = groundPath then { s with ground := some p }
  else if path = catenaryPath then { s with catenaryWire := some p }
  else s

theorem getPrim_left (s : Stage) : getPrimAtPath s leftCamPath = s.leftCam := by
  rw [getPrimAtPath, if_neg (by decide), if_neg (by decide), if_pos rfl]

theorem getPrim_right (s : Stage) : getPrimAtPath s rightCamPath = s.rightCam := by
  rw [getPrimAtPath, if_neg (by decide), if_neg (by decide), if_neg (by decide), if_pos rfl]

theorem setPrim_left (s : Stage) (p : Prim) :
    setPrimAtPath s leftCamPath p = { s with leftCam := some p } := by
  rw [setPrimAtPath, if_neg (by decide), if_neg (by decide), if_pos rfl]

theorem setPrim_right (s : Stage) (p : Prim) :
    setPrimAtPath s rightCamPath p = { s with rightCam := some p } := by
  rw [setPrimAtPath, if_neg (by decide), if_neg (by decide), if_neg (by decide), if_pos rfl]

/-- The loop over `GetOrderedXformOps()` in `setup_stereo_baseline`: set the
first translate op to `v`, or append a fresh translate op
(`AddTranslateOp`) when none exists. -/
def setTranslateOp : List XformOp → Vec3 → List XformOp
  | [], v => [⟨XformOpType.translate, v⟩]
  | o :: rest, v =>
      if isTranslate o then ⟨XformOpType.translate, v⟩ :: rest
      else o :: setTranslateOp rest v

/-- `capture_pantograph_data.setup_stereo_baseline`: if either camera prim is
invalid, print a warning and return with the stage untouched (`Bool` is the
warned flag); otherwise overwrite each camera's translate op with
`(∓baseline_m/2, 0, 0)`. -/
def setup_stereo_baseline (stage : Stage) (baseline_m : ℚ) : Stage × Bool :=
  match getPrimAtPath stage leftCamPath, getPrimAtPath stage rightCamPath with
  | some lp, some rp =>
      let half_base := baseline_m / 2
      let lp' : Prim := { lp with xformOps := setTranslateOp lp.xformOps ⟨-half_base, 0, 0⟩ }
      let rp' : Prim := { rp with xformOps := setTranslateOp rp.xformOps ⟨half_base, 0, 0⟩ }
      (setPrimAtPath (setPrimAtPath stage leftCamPath lp') rightCamPath rp', false)
  | _, _ => (stage, true)

/-- The value of the first translate op in an ordered op list, if any. -/
def firstTranslateValue (ops : List XformOp) : Option Vec3 :=
  (ops.find? isTranslate).map XformOp.value

theorem setTranslateOp_cons (o : XformOp) (rest : List XformOp) (v : Vec3) :
    setTranslateOp (o :: rest) v =
      if isTranslate o then ⟨XformOpType.translate, v⟩ :: rest
      else o :: setTranslateOp rest v := rfl

theorem firstTranslateValue_setTranslateOp (ops : List XformOp) (v : Vec3) :
    firstTranslateValue (setTranslateOp ops v) = some v := by
  induction ops with
  | nil => rfl
  | cons o rest ih =>
      rw [setTranslateOp_cons]
      by_cases h : isTranslate o
      · rw [if_pos h]
        rfl
      · rw [if_neg h]
        rw [firstTranslateValue, List.find?_cons_of_neg _ (by simpa using h)]
        exact ih

def vzero : Vec3 := ⟨0, 0, 0⟩

def vadd (a b : Vec3) : Vec3 := ⟨a.x + b.x, a.y + b.y, a.z + b.z⟩

def vneg (a : Vec3) : Vec3 := ⟨-a.x, -a.y, -a.z⟩

/-- The translation component of the composed local transform of an ordered
op list (first op in `xformOpOrder` outermost, as USD composes it),
evaluated as far as it is determined without rotation matrices: a translate
op contributes its value on top of the rest; any other op fixes the origin,
so it preserves a zero translation and is indeterminate (`none`) otherwise. -/
def localTranslation : List XformOp → Option Vec3
  | [] => some vzero
  | o :: rest =>
      if isTranslate o then (localTranslation rest).map (vadd o.value)
      else
        match localTranslation rest with
        | some t => if t = vzero then some vzero else none
        | none => none

/-- Op lists whose translate ops, if any, consist of a single translate at
the head — the shape the scene builder gives every camera (`AddTranslateOp`
as the only op), with arbitrary non-translate ops after it. -/
def translateLeading (ops : List XformOp) : Prop :=
  match ops with
  | [] => True
  | o :: rest => isTranslate o = true ∧ ∀ o' ∈ rest, isTranslate o' = false

theorem vadd_vzero (v : Vec3) : vadd v vzero = v := by
  cases v
  simp [vadd, vzero]

theorem localTranslation_of_no_translate (ops : List XformOp)
    (h : ∀ o ∈ ops, isTranslate o = false) : localTranslation ops = some vzero := by
  induction ops with
  | nil => rfl
  | cons o rest ih =>
      have ho : isTranslate o = false := h o (List.mem_cons_self o rest)
      have hrest := ih fun o' ho' => h o' (List.mem_cons_of_mem o ho')
      rw [localTranslation, if_neg (by simp [ho]), hrest]
      simp

theorem localTranslation_setTranslateOp (ops : List XformOp) (v : Vec3)
    (h : translateLeading ops) :
    localTranslation (setTranslateOp ops v) = some v := by
  cases ops with
  | nil =>
      show localTranslation [⟨XformOpType.translate, v⟩] = some v
      simp [localTranslation, isTranslate, vadd_vzero]
  | cons o rest =>
      obtain ⟨ho, hrest⟩ := h
      rw [setTranslateOp_cons, if_pos ho, localTranslation]
      simp [isTranslate, localTranslation_of_no_translate rest hrest, vadd_vzero]

theorem setTranslateOp_idem (ops : List XformOp) (v : Vec3) :
    setTranslateOp (setTranslateOp ops v) v = setTranslateOp ops v := by
  induction ops with
  | nil => rfl
  | cons o rest ih =>
      rw [setTranslateOp_cons]
      by_cases h : isTranslate o
      · rw [if_pos h, setTranslateOp_cons]
        simp [isTranslate]
      · rw [if_neg h, setTranslateOp_cons, if_neg h, ih]

/-! ## The scene produced by `setup_pantograph_scene.py`

The builder places the pantograph (rotate then lift), the rig (translate
then rotate), and the two cameras at `(∓BASELINE_M/2, 0, 0)`; ground and
wire prims carry no xform ops. -/

def BASELINE_M : ℚ := 0.12
def CAMERA_DISTANCE_M : ℚ := 1.5

def builderLeftCamPrim : Prim :=
  ⟨[⟨XformOpType.translate, ⟨-(BASELINE_M / 2), 0, 0⟩⟩], []⟩

def builderRightCamPrim : Prim :=
  ⟨[⟨XformOpType.translate, ⟨BASELINE_M / 2, 0, 0⟩⟩], []⟩

def builderStage : Stage where
  pantograph := some ⟨[⟨XformOpType.rotateXYZ, ⟨90, 0, 0⟩⟩,
    ⟨XformOpType.translate, ⟨0, 0, 1.5⟩⟩], []⟩
  stereoRig := some ⟨[⟨XformOpType.translate, ⟨0, -CAMERA_DISTANCE_M, 1.5⟩⟩,
    ⟨XformOpType.rotateXYZ, ⟨90, 0, 0⟩⟩], []⟩
  leftCam := some builderLeftCamPrim
  rightCam := some builderRightCamPrim
  ground := some ⟨[], []⟩
  catenaryWire := some ⟨[], []⟩

/-- Shared reduction: with both camera prims valid, `setup_stereo_baseline`
returns the stage with each camera's translate op overwritten, and no
warning. -/
theorem setup_stereo_baseline_eq (s : Stage) (b : ℚ) (lp rp : Prim)
    (hl : getPrimAtPath s leftCamPath = some lp)
    (hr : getPrimAtPath s rightCamPath = some rp) :
    setup_stereo_baseline s b =
      ({ s with
          leftCam := some { lp with xformOps := setTranslateOp lp.xformOps ⟨-(b / 2), 0, 0⟩ },
          rightCam := some { rp with xformOps := setTranslateOp rp.xformOps ⟨b / 2, 0, 0⟩ } },
        false) := by
  simp only [setup_stereo_baseline, hl, hr]
  rw [setPrim_left, setPrim_right]

/-! ## Claims C3, C4, C5, C10 -/

/-- C3: before any capture step is issued, `setup_stereo_baseline b` overwrites
both camera translations: for every stage in which both camera prims exist
(each camera's op list of the builder's shape — its translate op, if any, at
the head, followed by non-translate ops, with arbitrary previous translation
values), the resulting left camera's local translation is `(-b/2, 0, 0)`,
the right camera's is `(+b/2, 0, 0)`, and the two are exact negations of
each other along the baseline (x) axis. -/
theorem setup_baseline_mirror_symmetry (s : Stage) (b : ℚ) (lp rp : Prim)
    (hl : getPrimAtPath s leftCamPath = some lp)
    (hr : getPrimAtPath s rightCamPath = some rp)
    (hlt : translateLeading lp.xformOps)
    (hrt : translateLeading rp.xformOps) :
    ((setup_stereo_baseline s b).1.leftCam.map fun p => localTranslation p.xformOps)
        = some (some ⟨-(b / 2), 0, 0⟩) ∧
    ((setup_stereo_baseline s b).1.rightCam.map fun p => localTranslation p.xformOps)
        = some (some ⟨b / 2, 0, 0⟩) ∧
    (⟨-(b / 2), 0, 0⟩ : Vec3) = vneg ⟨b / 2, 0, 0⟩ := by
  rw [setup_stereo_baseline_eq s b lp rp hl hr]
  refine ⟨?_, ?_, ?_⟩
  · simp [localTranslation_setTranslateOp _ _ hlt]
  · simp [localTranslation_setTranslateOp _ _ hrt]
  · simp [vneg]

/-- Witness for C3 at the builder's saved scene with `b = BASELINE_M`. -/
theorem setup_baseline_mirror_symmetry_witness :
    ((setup_stereo_baseline builderStage BASELINE_M).1.leftCam.map
        fun p => localTranslation p.xformOps)
      = some (some ⟨-(BASELINE_M / 2), 0, 0⟩) ∧
    ((setup_stereo_baseline builderStage BASELINE_M).1.rightCam.map
        fun p => localTranslation p.xformOps)
      = some (some ⟨BASELINE_M / 2, 0, 0⟩) ∧
    (⟨-(BASELINE_M / 2), 0, 0⟩ : Vec3) = vneg ⟨BASELINE_M / 2, 0, 0⟩ :=
  setup_baseline_mirror_symmetry builderStage BASELINE_M
    builderLeftCamPrim builderRightCamPrim
    (by rw [getPrim_left]; rfl) (by rw [getPrim_right]; rfl)
    ⟨rfl, by simp⟩ ⟨rfl, by simp⟩

/-- C4 counterexample: called with `baseline_m = -1/2 < 0` on the builder's
scene, `setup_stereo_baseline` does not fail: it returns without warning
(`false`) and silently writes the offsets `(+1/4, 0, 0)` / `(-1/4, 0, 0)`
computed from the negative baseline. -/
theorem setup_negative_baseline_accepted :
    (setup_stereo_baseline builderStage (-(1 / 2) : ℚ)).2 = false ∧
    ((setup_stereo_baseline builderStage (-(1 / 2) : ℚ)).1.leftCam.map
        fun p => firstTranslateValue p.xformOps) = some (some ⟨1 / 4, 0, 0⟩) ∧
    ((setup_stereo_baseline builderStage (-(1 / 2) : ℚ)).1.rightCam.map
        fun p => firstTranslateValue p.xformOps) = some (some ⟨-(1 / 4), 0, 0⟩) := by
  rw [setup_stereo_baseline_eq builderStage (-(1 / 2)) builderLeftCamPrim
    builderRightCamPrim (by rw [getPrim_left]; rfl) (by rw [getPrim_right]; rfl)]
  refine ⟨rfl, ?_, ?_⟩ <;> simp [firstTranslateValue_setTranslateOp] <;> norm_num

/-- C4 amended: the baseline-offset computation performs no validation at
all: for every `baseline_m` (negative included), when both camera prims
exist it succeeds without warning and writes the exact, unclamped offsets
`(∓baseline_m/2, 0, 0)`; in particular `baseline_m = 0` is accepted and
yields coincident offsets. -/
theorem setup_accepts_any_baseline (s : Stage) (b : ℚ) (lp rp : Prim)
    (hl : getPrimAtPath s leftCamPath = some lp)
    (hr : getPrimAtPath s rightCamPath = some rp) :
    (setup_stereo_baseline s b).2 = false ∧
    ((setup_stereo_baseline s b).1.leftCam.map fun p => firstTranslateValue p.xformOps)
        = some (some ⟨-(b / 2), 0, 0⟩) ∧
    ((setup_stereo_baseline s b).1.rightCam.map fun p => firstTranslateValue p.xformOps)
        = some (some ⟨b / 2, 0, 0⟩) := by
  rw [setup_stereo_baseline_eq s b lp rp hl hr]
  refine ⟨rfl, ?_, ?_⟩
  · simp [firstTranslateValue_setTranslateOp]
  · simp [firstTranslateValue_setTranslateOp]

/-- Witness for C4 (amended) at the degenerate-but-legal `baseline_m = 0`:
the call succeeds and the two offsets coincide. -/
theorem setup_accepts_any_baseline_witness :
    (setup_stereo_baseline builderStage 0).2 = false ∧
    ((setup_stereo_baseline builderStage 0).1.leftCam.map
        fun p => firstTranslateValue p.xformOps) = some (some ⟨-((0 : ℚ) / 2), 0, 0⟩) ∧
    ((setup_stereo_baseline builderStage 0).1.rightCam.map
        fun p => firstTranslateValue p.xformOps) = some (some ⟨(0 : ℚ) / 2, 0, 0⟩) :=
  setup_accepts_any_baseline builderStage 0 builderLeftCamPrim builderRightCamPrim
    (by rw [getPrim_left]; rfl) (by rw [getPrim_right]; rfl)

/-- C5: for every `baseline_m ≥ 0` (with both camera prims present), the
baseline-offset computation yields the pair `(-b/2, 0, 0)` / `(+b/2, 0, 0)`
along the baseline axis; the two offsets sum to 0 and right minus left
equals `baseline_m`. -/
theorem compute_stereo_offsets_spec (s : Stage) (b : ℚ) (lp rp : Prim)
    (hb : 0 ≤ b)
    (hl : getPrimAtPath s leftCamPath = some lp)
    (hr : getPrimAtPath s rightCamPath = some rp) :
    ((setup_stereo_baseline s b).1.leftCam.map fun p => firstTranslateValue p.xformOps)
        = some (some ⟨-(b / 2), 0, 0⟩) ∧
    ((setup_stereo_baseline s b).1.rightCam.map fun p => firstTranslateValue p.xformOps)
        = some (some ⟨b / 2, 0, 0⟩) ∧
    -(b / 2) + b / 2 = 0 ∧
    b / 2 - -(b / 2) = b := by
  rw [setup_stereo_baseline_eq s b lp rp hl hr]
  refine ⟨?_, ?_, by ring, by ring⟩
  · simp [firstTranslateValue_setTranslateOp]
  · simp [firstTranslateValue_setTranslateOp]

/-- Witness for C5 at the builder's scene with `b = BASELINE_M = 0.12`. -/
theorem compute_stereo_offsets_spec_witness :
    ((setup_stereo_baseline builderStage BASELINE_M).1.leftCam.map
        fun p => firstTranslateValue p.xformOps) = some (some ⟨-(BASELINE_M / 2), 0, 0⟩) ∧
    ((setup_stereo_baseline builderStage BASELINE_M).1.rightCam.map
        fun p => firstTranslateValue p.xformOps) = some (some ⟨BASELINE_M / 2, 0, 0⟩) ∧
    -(BASELINE_M / 2) + BASELINE_M / 2 = 0 ∧
    BASELINE_M / 2 - -(BASELINE_M / 2) = BASELINE_M :=
  compute_stereo_offsets_spec builderStage BASELINE_M
    builderLeftCamPrim builderRightCamPrim (by norm_num [BASELINE_M])
    (by rw [getPrim_left]; rfl) (by rw [getPrim_right]; rfl)

/-- C10: `setup_stereo_baseline` is idempotent: on any stage in which both
camera prims exist, a second run with the same baseline finds the translate
op written by the first run and rewrites it in place, so the whole stage
(op lists and values included) after two calls equals the stage after one. -/
theorem setup_stereo_baseline_idempotent (s : Stage) (b : ℚ) (lp rp : Prim)
    (hl : getPrimAtPath s leftCamPath = some lp)
    (hr : getPrimAtPath s rightCamPath = some rp) :
    setup_stereo_baseline (setup_stereo_baseline s b).1 b = setup_stereo_baseline s b := by
  rw [setup_stereo_baseline_eq s b lp rp hl hr]
  rw [setup_stereo_baseline_eq _ b
    { lp with xformOps := setTranslateOp lp.xformOps ⟨-(b / 2), 0, 0⟩ }
    { rp with xformOps := setTranslateOp rp.xformOps ⟨b / 2, 0, 0⟩ }
    (by rw [getPrim_left]) (by rw [getPrim_right])]
  rw [setTranslateOp_idem, setTranslateOp_idem]

/-- Witness for C10 at the builder's scene with `b = BASELINE_M`. -/
theorem setup_stereo_baseline_idempotent_witness :
    setup_stereo_baseline (setup_stereo_baseline builderStage BASELINE_M).1 BASELINE_M
      = setup_stereo_baseline builderStage BASELINE_M :=
  setup_stereo_baseline_idempotent builderStage BASELINE_M
    builderLeftCamPrim builderRightCamPrim
    (by rw [getPrim_left]; rfl) (by rw [getPrim_right]; rfl)

/-! ## Claim C1 — focal length (`setup_pantograph_scene.py`, lines 51-53 and 56-68)

The script computes `focal_length_mm` from the HFOV formula, but the value
it actually passes to `GetFocalLengthAttr().Set(...)` on both cameras is
the hardcoded literal `3.5`. -/

def IMAGE_WIDTH : ℕ := 1920
def IMAGE_HEIGHT : ℕ := 1080
def HFOV_DEG : ℝ := 90

/-- `np.radians`: degrees to radians. -/
noncomputable def radians (deg : ℝ) : ℝ := deg * Real.pi / 180

/-- Lines 52-53: `(IMAGE_WIDTH / 2) / np.tan(np.radians(HFOV_DEG / 2))`,
converted to millimetres with the 3.6 µm pixel pitch. -/
noncomputable def focal_length_mm : ℝ :=
  ((IMAGE_WIDTH : ℝ) / 2) / Real.tan (radians (HFOV_DEG / 2)) * 0.0036

/-- Line 60: `left_cam.GetFocalLengthAttr().Set(3.5)`. -/
def leftCamFocalLengthAttr : ℝ := 3.5

/-- Line 68: `right_cam.GetFocalLengthAttr().Set(3.5)`. -/
def rightCamFocalLengthAttr : ℝ := 3.5

theorem radians_half_hfov : radians (HFOV_DEG / 2) = Real.pi / 4 := by
  rw [radians, HFOV_DEG]
  ring

theorem focal_length_mm_eq : focal_length_mm = 3.456 := by
  rw [focal_length_mm, radians_half_hfov, Real.tan_pi_div_four, IMAGE_WIDTH]
  norm_num

/-- C1 counterexample: the focal length the script sets on the cameras is
not the formula value `(1920 / 2) / tan(45°) * 3.6e-6 m = 3.456 mm`: the
formula gives 3.456 but both cameras are set to the literal 3.5. -/
theorem focal_length_attr_ne_formula :
    focal_length_mm = 3.456 ∧
    leftCamFocalLengthAttr ≠ focal_length_mm ∧
    rightCamFocalLengthAttr ≠ focal_length_mm := by
  refine ⟨focal_length_mm_eq, ?_, ?_⟩ <;>
    rw [focal_length_mm_eq] <;>
    norm_num [leftCamFocalLengthAttr, rightCamFocalLengthAttr]

/-- C1 amended: the derived `focal_length_mm` is the pure formula value —
for `image_width_px = 1920`, `hfov_deg = 90`, `pixel_pitch_m = 3.6e-6` it
equals 3.456 mm — but the focal length actually assigned to both cameras is
the hardcoded approximation 3.5 mm (the same on both), and the computed
value is never applied. -/
theorem focal_length_formula_vs_attr :
    focal_length_mm = ((IMAGE_WIDTH : ℝ) / 2) / Real.tan (radians (HFOV_DEG / 2)) * 0.0036 ∧
    focal_length_mm = 3.456 ∧
    leftCamFocalLengthAttr = 3.5 ∧
    rightCamFocalLengthAttr = 3.5 ∧
    leftCamFocalLengthAttr = rightCamFocalLengthAttr ∧
    leftCamFocalLengthAttr ≠ focal_length_mm := by
  refine ⟨rfl, focal_length_mm_eq, rfl, rfl, rfl, ?_⟩
  rw [focal_length_mm_eq]
  norm_num [leftCamFocalLengthAttr]

/-! ## Claim C7 — expected disparity (`setup_pantograph_scene.py`, lines 106-115) -/

/-- Line 107: `fx_px = 3.5 / (6.912 / IMAGE_WIDTH)`, focal length in pixels. -/
def fx_px : ℚ := 3.5 / (6.912 / (IMAGE_WIDTH : ℚ))

/-- The disparity formula `(focal_length_px * baseline_m) / distance_m`
the script evaluates at 1 m (`d_near`) and 2 m (`d_far`). -/
def computeExpectedDisparity (focal_length_px baseline_m distance_m : ℚ) : ℚ :=
  focal_length_px * baseline_m / distance_m

/-- Line 108: `d_near = (fx_px * BASELINE_M) / 1.0`. -/
def d_near : ℚ := fx_px * BASELINE_M / 1.0

/-- Line 109: `d_far = (fx_px * BASELINE_M) / 2.0`. -/
def d_far : ℚ := fx_px * BASELINE_M / 2.0

/-- C7: for every `focal_length_px`, `baseline_m` and `distance_m > 0`, the
expected disparity is `(focal_length_px * baseline_m) / distance_m`, and
doubling the distance exactly halves it; in the script, the disparity at
2 m (`d_far`) is exactly half the disparity at 1 m (`d_near`). -/
theorem compute_expected_disparity_halving (f b d : ℚ) (hd : 0 < d) :
    computeExpectedDisparity f b d = f * b / d ∧
    computeExpectedDisparity f b (2 * d) = computeExpectedDisparity f b d / 2 ∧
    d_near = computeExpectedDisparity fx_px BASELINE_M 1 ∧
    d_far = computeExpectedDisparity fx_px BASELINE_M 2 ∧
    d_far = d_near / 2 := by
  refine ⟨rfl, ?_, ?_, ?_, ?_⟩
  · rw [computeExpectedDisparity, computeExpectedDisparity, div_div, mul_comm d 2]
  · norm_num [d_near, computeExpectedDisparity]
  · norm_num [d_far, computeExpectedDisparity]
  · norm_num [d_near, d_far]

/-- Witness for C7 at `focal_length_px = 973.1`, `baseline_m = 0.12`,
`distance_m = 1`. -/
theorem compute_expected_disparity_halving_witness :
    computeExpectedDisparity 973.1 BASELINE_M 1 = 973.1 * BASELINE_M / 1 ∧
    computeExpectedDisparity 973.1 BASELINE_M (2 * 1) =
      computeExpectedDisparity 973.1 BASELINE_M 1 / 2 ∧
    d_near = computeExpectedDisparity fx_px BASELINE_M 1 ∧
    d_far = computeExpectedDisparity fx_px BASELINE_M 2 ∧
    d_far = d_near / 2 :=
  compute_expected_disparity_halving 973.1 BASELINE_M 1 (by norm_num)

/-! ## Claim C2 — baseline validator -/

/-- Euclidean length of the difference of two world positions: embedding of
`dist = (l_pos - r_pos).GetLength()` (`capture_pantograph_data.py`,
line 139). -/
noncomputable def dist3 (p q : ℝ × ℝ × ℝ) : ℝ :=
  Real.sqrt ((p.1 - q.1) ^ 2 + (p.2.1 - q.2.1) ^ 2 + (p.2.2 - q.2.2) ^ 2)

/-- The validator's structured result. -/
structure BaselineCheck where
  ok : Prop
  measured_baseline_m : ℝ
  delta_m : ℝ

/-- Modelled from the spec: `verify_baseline(left_world_pos,
right_world_pos, expected_baseline_m, tolerance_m) -> {ok,
measured_baseline_m, delta_m}` (spec §4.2). The capture script computes
only the measured part (`dist`, line 139) and prints it; the structured
validator itself is not in `src/`. The measured baseline is the Euclidean
distance between the two positions (as the script's `GetLength`), `delta_m`
its absolute deviation from the expected baseline, `ok` true exactly when
`delta_m` is within tolerance. -/
noncomputable def verify_baseline (left_world_pos right_world_pos : ℝ × ℝ × ℝ)
    (expected_baseline_m tolerance_m : ℝ) : BaselineCheck :=
  let measured := dist3 left_world_pos right_world_pos
  { ok := |measured - expected_baseline_m| ≤ tolerance_m
    measured_baseline_m := measured
    delta_m := |measured - expected_baseline_m| }

theorem dist3_onaxis (a b : ℝ) (hab : a ≤ b) : dist3 (a, 0, 0) (b, 0, 0) = b - a := by
  rw [dist3]
  simp only
  rw [show (a - b) ^ 2 + ((0 : ℝ) - 0) ^ 2 + ((0 : ℝ) - 0) ^ 2 = (b - a) ^ 2 by ring,
    Real.sqrt_sq (by linarith)]

/-- C2: `verify_baseline` returns the Euclidean distance as
`measured_baseline_m`, the absolute deviation as `delta_m`, and `ok` holds
exactly when `delta_m` is within tolerance; at
`((-0.06,0,0), (0.06,0,0), 0.12)` (default tolerance `1e-3`) it returns
`ok` with `measured = 0.12` and `delta = 0`, and at
`((-0.5,0,0), (0.5,0,0), 0.12)` it returns `¬ok` with `delta = 0.88` —
a total function, raising in neither case. -/
theorem verify_baseline_spec :
    (∀ l r e t, (verify_baseline l r e t).measured_baseline_m = dist3 l r ∧
      (verify_baseline l r e t).delta_m = |dist3 l r - e| ∧
      ((verify_baseline l r e t).ok ↔ (verify_baseline l r e t).delta_m ≤ t)) ∧
    (verify_baseline (-0.06, 0, 0) (0.06, 0, 0) 0.12 1e-3).measured_baseline_m = 0.12 ∧
    (verify_baseline (-0.06, 0, 0) (0.06, 0, 0) 0.12 1e-3).delta_m = 0 ∧
    (verify_baseline (-0.06, 0, 0) (0.06, 0, 0) 0.12 1e-3).ok ∧
    (verify_baseline (-0.5, 0, 0) (0.5, 0, 0) 0.12 1e-3).delta_m = 0.88 ∧
    ¬ (verify_baseline (-0.5, 0, 0) (0.5, 0, 0) 0.12 1e-3).ok := by
  have h1 : dist3 ((-0.06 : ℝ), 0, 0) (0.06, 0, 0) = 0.12 := by
    rw [dist3_onaxis (-0.06) 0.06 (by norm_num)]
    norm_num
  have h2 : dist3 ((-0.5 : ℝ), 0, 0) (0.5, 0, 0) = 1 := by
    rw [dist3_onaxis (-0.5) 0.5 (by norm_num)]
    norm_num
  refine ⟨fun l r e t => ⟨rfl, rfl, Iff.rfl⟩, ?_, ?_, ?_, ?_, ?_⟩
  · show dist3 ((-0.06 : ℝ), 0, 0) (0.06, 0, 0) = 0.12
    exact h1
  · show |dist3 ((-0.06 : ℝ), 0, 0) (0.06, 0, 0) - 0.12| = 0
    rw [h1]
    norm_num
  · show |dist3 ((-0.06 : ℝ), 0, 0) (0.06, 0, 0) - 0.12| ≤ 1e-3
    rw [h1]
    norm_num
  · show |dist3 ((-0.5 : ℝ), 0, 0) (0.5, 0, 0) - 0.12| = 0.88
    rw [h2]
    norm_num
  · show ¬ |dist3 ((-0.5 : ℝ), 0, 0) (0.5, 0, 0) - 0.12| ≤ 1e-3
    rw [h2, show |(1 : ℝ) - 0.12| = 0.88 from by rw [abs_of_nonneg (by norm_num)]; norm_num]
    norm_num

/-! ## Claim C6 — catenary sampling (`setup_pantograph_scene.py`, lines 87-91) -/

/-- The `x` coordinate of the `i`-th catenary sample: evenly spaced over
`[-span/2, +span/2]`. -/
def catX (span : ℚ) (n : ℕ) (i : ℕ) : ℚ :=
  -(span / 2) + (i : ℚ) * (span / ((n : ℚ) - 1))

/-- Modelled from the spec: the general `sample_catenary(span_m,
num_points, base_height_m, sag_coefficient)` of spec §4.1; the script
inlines only the instance `span=6, num_points=21, base=1.8, sag=0.02`
(`wire_points`, lines 87-91): evenly spaced `x`, `y = 0`,
`z = base + sag * x^2`. -/
def sample_catenary (span : ℚ) (n : ℕ) (base sag : ℚ) : List (ℚ × ℚ × ℚ) :=
  (List.range n).map fun i => (catX span n i, 0, base + sag * catX span n i ^ 2)

/-- Lines 87-91: `x = (i - 10) * 0.3`, `z = 1.8 + 0.02 * (x ** 2)`,
appended as `(x, 0, z)` for `i in range(21)`. -/
def wire_points : List (ℚ × ℚ × ℚ) :=
  (List.range 21).map fun (i : ℕ) =>
    (((i : ℚ) - 10) * 0.3, 0, 1.8 + 0.02 * (((i : ℚ) - 10) * 0.3) ^ 2)

theorem wire_points_eq_sample_catenary :
    wire_points = sample_catenary 6 21 1.8 0.02 := by
  rw [wire_points, sample_catenary]
  apply List.map_congr_left
  intro i _
  have hx : ((i : ℚ) - 10) * 0.3 = catX 6 21 i := by
    rw [catX]
    norm_num
    ring
  rw [hx]

/-- C6: `sample_catenary` returns exactly `num_points` points; the `x`
coordinates are evenly spaced over `[-span/2, +span/2]` (constant step
`span/(n-1)`, endpoints `±span/2`), `y` is always 0 and
`z = base + sag * x^2`; the script's `wire_points` is exactly the instance
at `span=6, n=21, base=1.8, sag=0.02`, with point 0 at `x = -3`, point 10
at `(0, 0, 1.8)` and point 20 at `(3, 0, 1.98)`. -/
theorem sample_catenary_spec :
    (∀ (span base sag : ℚ) (n : ℕ), 2 ≤ n →
      (sample_catenary span n base sag).length = n ∧
      (∀ i, i < n → (sample_catenary span n base sag).get? i =
        some (catX span n i, 0, base + sag * catX span n i ^ 2)) ∧
      (∀ i, i + 1 < n → catX span n (i + 1) - catX span n i = span / ((n : ℚ) - 1)) ∧
      catX span n 0 = -(span / 2) ∧
      catX span n (n - 1) = span / 2) ∧
    wire_points = sample_catenary 6 21 1.8 0.02 ∧
    wire_points.length = 21 ∧
    wire_points.get? 0 = some (-3, 0, 1.98) ∧
    wire_points.get? 10 = some (0, 0, 1.8) ∧
    wire_points.get? 20 = some (3, 0, 1.98) := by
  constructor
  · intro span base sag n hn
    have hn1 : ((n : ℚ) - 1) ≠ 0 := by
      have h2 : (2 : ℚ) ≤ (n : ℚ) := by exact_mod_cast hn
      intro h
      have h3 : (n : ℚ) = 1 := by linarith
      linarith
    refine ⟨by simp [sample_catenary], ?_, ?_, ?_, ?_⟩
    · intro i hi
      rw [sample_catenary, List.get?_map, List.get?_range hi]
      rfl
    · intro i _
      rw [catX, catX]
      push_cast
      ring
    · rw [catX]
      norm_num
    · rw [catX, Nat.cast_sub (by omega)]
      field_simp
      ring
  refine ⟨wire_points_eq_sample_catenary, ?_, ?_, ?_, ?_⟩
  · simp [wire_points]
  · rw [wire_points, List.get?_map, List.get?_range (show 0 < 21 by norm_num)]
    norm_num
  · rw [wire_points, List.get?_map, List.get?_range (show 10 < 21 by norm_num)]
    norm_num
  · rw [wire_points, List.get?_map, List.get?_range (show 20 < 21 by norm_num)]
    norm_num

/-- Witness for C6 at the script's parameters `span=6, n=21, base=1.8,
sag=0.02`, sampling index hypotheses discharged at `i = 10` and `i = 0`. -/
theorem sample_catenary_spec_witness :
    (sample_catenary 6 21 1.8 0.02).length = 21 ∧
    (sample_catenary 6 21 1.8 0.02).get? 10 =
      some (catX 6 21 10, 0, 1.8 + 0.02 * catX 6 21 10 ^ 2) ∧
    catX 6 21 1 - catX 6 21 0 = 6 / ((21 : ℚ) - 1) ∧
    catX 6 21 0 = -(6 / 2) ∧
    catX 6 21 (21 - 1) = 6 / 2 :=
  ⟨(sample_catenary_spec.1 6 1.8 0.02 21 (by norm_num)).1,
   (sample_catenary_spec.1 6 1.8 0.02 21 (by norm_num)).2.1 10 (by norm_num),
   (sample_catenary_spec.1 6 1.8 0.02 21 (by norm_num)).2.2.1 0 (by norm_num),
   (sample_catenary_spec.1 6 1.8 0.02 21 (by norm_num)).2.2.2.1,
   (sample_catenary_spec.1 6 1.8 0.02 21 (by norm_num)).2.2.2.2⟩

/-! ## Claim C8 — missing-resource handling (`capture_pantograph_data.py`) -/

/-- Lines 22-25: opening the scene; `raise RuntimeError(...)` when the
returned stage is `None`, otherwise proceed with the stage. -/
def openStage (loaded : Option Stage) : Except String Stage :=
  match loaded with
  | none => Except.error "Failed to open stage"
  | some s => Except.ok s

/-- `prim.CreateAttribute(name, ...).Set(value)`: create the attribute if
absent, then overwrite its value. -/
def setAttr : List (String × String) → String → String → List (String × String)
  | [], k, v => [(k, v)]
  | (k', v') :: rest, k, v =>
      if k' = k then (k, v) :: rest else (k', v') :: setAttr rest k v

/-- Lines 92-97: `set_semantic_label` raises `RuntimeError` when its target
prim is invalid, otherwise creates and sets the `semantics:class` token. -/
def set_semantic_label (s : Stage) (prim_path label : String) : Except String Stage :=
  match getPrimAtPath s prim_path with
  | none => Except.error ("Missing prim at " ++ prim_path)
  | some p =>
      Except.ok (setPrimAtPath s prim_path
        { p with attrs := setAttr p.attrs "semantics:class" label })

/-- A stage with no valid prim at any of the scripts' paths. -/
def emptyStage : Stage := ⟨none, none, none, none, none, none⟩

/-- C8: a non-resolving scene-node path is fatal where required — opening
the scene errors when the stage fails to load (and succeeds otherwise), and
`set_semantic_label` errors when its target prim is invalid — but the
best-effort baseline re-assertion is non-fatal: with either stereo camera
prim missing, `setup_stereo_baseline` only warns (`true` flag), changes
nothing, and returns. -/
theorem missing_resource_handling :
    openStage none = Except.error "Failed to open stage" ∧
    (∀ s : Stage, openStage (some s) = Except.ok s) ∧
    (∀ (s : Stage) (path label : String), getPrimAtPath s path = none →
      set_semantic_label s path label = Except.error ("Missing prim at " ++ path)) ∧
    (∀ (s : Stage) (b : ℚ),
      getPrimAtPath s leftCamPath = none ∨ getPrimAtPath s rightCamPath = none →
      setup_stereo_baseline s b = (s, true)) := by
  refine ⟨rfl, fun s => rfl, ?_, ?_⟩
  · intro s path label h
    rw [set_semantic_label, h]
  · intro s b h
    rcases h with h | h
    · simp [setup_stereo_baseline, h]
    · rcases hl : getPrimAtPath s leftCamPath with _ | lp
      · simp [setup_stereo_baseline, hl]
      · simp [setup_stereo_baseline, hl, h]

/-- Witness for C8 on a stage with no valid prims. -/
theorem missing_resource_handling_witness :
    openStage none = Except.error "Failed to open stage" ∧
    openStage (some emptyStage) = Except.ok emptyStage ∧
    set_semantic_label emptyStage pantographPath "pantograph"
      = Except.error ("Missing prim at " ++ pantographPath) ∧
    setup_stereo_baseline emptyStage BASELINE_M = (emptyStage, true) :=
  ⟨missing_resource_handling.1,
   missing_resource_handling.2.1 emptyStage,
   missing_resource_handling.2.2.1 emptyStage pantographPath "pantograph"
     (by rw [getPrimAtPath, if_pos rfl]; rfl),
   missing_resource_handling.2.2.2 emptyStage BASELINE_M
     (Or.inl (by rw [getPrim_left]; rfl))⟩

/-! ## Claim C9 — capture-session lifecycle (`capture_pantograph_data.py`, lines 103-146) -/

/-- Line 18: `NUM_FRAMES = 30`. -/
def NUM_FRAMES : ℕ := 30

/-- The externally visible actions the capture script performs, in program
order. -/
inductive CaptureEvent where
  | semanticLabelSet
  | renderProductCreate
  | writerCreate
  | writerAttach
  | orchestratorStep
  | appUpdate
  | appClose
deriving DecidableEq, Repr

/-- Lines 103-123: three semantic labels, two render products, one writer
obtained and initialized, one `writer.attach`. -/
def writerSetupTrace : List CaptureEvent :=
  [CaptureEvent.semanticLabelSet, CaptureEvent.semanticLabelSet,
   CaptureEvent.semanticLabelSet, CaptureEvent.renderProductCreate,
   CaptureEvent.renderProductCreate, CaptureEvent.writerCreate,
   CaptureEvent.writerAttach]

/-- Lines 126-128: `for i in range(NUM_FRAMES): rep.orchestrator.step();
simulation_app.update()` (the `i == 0` block only reads and prints). -/
def captureLoopTrace : List CaptureEvent :=
  (List.replicate NUM_FRAMES
    [CaptureEvent.orchestratorStep, CaptureEvent.appUpdate]).flatten

/-- Lines 142-143: `for _ in range(5): simulation_app.update()`. -/
def drainTrace : List CaptureEvent := List.replicate 5 CaptureEvent.appUpdate

/-- The whole script: setup, capture loop, drain, close (line 146). -/
def captureScriptTrace : List CaptureEvent :=
  writerSetupTrace ++ captureLoopTrace ++ drainTrace ++ [CaptureEvent.appClose]

/-- C9: the capture session's lifecycle: the writer is created and attached
exactly once, before the first capture step; the loop issues exactly
`NUM_FRAMES = 30` synchronous capture steps; then exactly 5 idle update
steps drain in-flight work — with no capture step among or after them —
and the application close is the final event. -/
theorem capture_session_lifecycle :
    NUM_FRAMES = 30 ∧
    captureScriptTrace
      = writerSetupTrace ++ captureLoopTrace ++ drainTrace ++ [CaptureEvent.appClose] ∧
    captureScriptTrace.count CaptureEvent.writerCreate = 1 ∧
    captureScriptTrace.count CaptureEvent.writerAttach = 1 ∧
    writerSetupTrace.count CaptureEvent.orchestratorStep = 0 ∧
    captureLoopTrace.count CaptureEvent.orchestratorStep = NUM_FRAMES ∧
    captureScriptTrace.count CaptureEvent.orchestratorStep = NUM_FRAMES ∧
    drainTrace = List.replicate 5 CaptureEvent.appUpdate ∧
    CaptureEvent.orchestratorStep ∉ drainTrace ++ [CaptureEvent.appClose] ∧
    captureScriptTrace.getLast? = some CaptureEvent.appClose := by
  decide

end PantographStereo
